import Mathlib

/-
Verification development for the publish script `publish.py` of
YTSubConverter-CLI.  The definitions below are a shallow embedding of the
script: file contents are lists of lines (each line given without its
trailing newline character), the filesystem fragment the script touches is
an association list from file name to content, and the logging side effects
are recorded as explicit log-message lists.
-/

namespace Publish

/-- `DOTNET_PUBLISH_COMMAND` from publish.py: the fixed two-token base of the
assembled command. -/
def DOTNET_PUBLISH_COMMAND : List String := ["dotnet", "publish"]

/-- `FLAGS_PORTABLE` from publish.py. -/
def FLAGS_PORTABLE : List String := ["--self-contained", "true"]

/-- `FLAGS_NON_PORTABLE` from publish.py. -/
def FLAGS_NON_PORTABLE : List String := ["--self-contained", "false"]

/-- `FLAGS_SINGLE_FILE` from publish.py. -/
def FLAGS_SINGLE_FILE : List String :=
  ["/p:PublishSingleFile=true", "/p:IncludeNativeLibrariesForSelfExtract=true"]

/-- `FILES_WITH_WINDOWS_SYMBOLS` from publish.py: the default file list of
`remove_windows_symbols`. -/
def FILES_WITH_WINDOWS_SYMBOLS : List String := ["YTSubConverter.CLI/Program.cs"]

/-- The filesystem fragment the stripper can see: an association list from
file name to file content, a content being the list of lines of the file. -/
abbrev Fs := List (String × List String)

/-- Reading a file: `Path(fname).exists()` is `fsRead fs fname ≠ none`, and
`open(fname, encoding="utf-8-sig")` yields the stored lines (the utf-8-sig
codec only strips an optional leading BOM, which the line model abstracts). -/
def fsRead (fs : Fs) (fname : String) : Option (List String) :=
  (fs.find? (fun e => e.1 == fname)).map (fun e => e.2)

/-- Python `str.strip` helper: drop leading whitespace characters. -/
def dropLeadingSpace : List Char → List Char
  | [] => []
  | c :: cs => if c.isWhitespace then dropLeadingSpace cs else c :: cs

/-- Python `str.strip()`: remove whitespace from both ends. -/
def pyStrip (cs : List Char) : List Char :=
  (dropLeadingSpace ((dropLeadingSpace cs).reverse)).reverse

/-- Python `str.startswith(pre)` on character sequences. -/
def pyStartsWith (cs pre : List Char) : Bool := pre.isPrefixOf cs

/-- Python `str.endswith(suf)` on character sequences. -/
def pyEndsWith (cs suf : List Char) : Bool := suf.isSuffixOf cs

/-- Python `str.casefold()`, modelled as character-wise lowercasing, with
which it agrees on the ASCII names involved here. -/
def pyCasefold (cs : List Char) : List Char := cs.map Char.toLower

/-- The suffix test `fname.casefold().endswith(".cs")` from
`remove_windows_symbols` (line 129). -/
def endsInCs (fname : String) : Bool :=
  pyEndsWith (pyCasefold fname.data) ".cs".data

/-- The line classification of the scan loop (line 151):
`line.strip().startswith("#")`. -/
def isDirectiveLine (line : String) : Bool := pyStartsWith (pyStrip line.data) ['#']

/-- The content the with-block of `remove_windows_symbols` (lines 149-157)
writes to its output stream: the `for` loop copies each line while it is a
directive line; at the first non-directive line it writes `#undef WINDOWS`
and breaks — that first non-directive line was already consumed from
`line_iter` by the loop, so the trailing `out_f.writelines(line_iter)` emits
only the lines after it. -/
def stripTransform : List String → List String
  | [] => []
  | line :: rest =>
    if isDirectiveLine line then line :: stripTransform rest
    else "#undef WINDOWS" :: rest

/-- The log messages `remove_windows_symbols` can emit, one constructor per
logging call site (lines 134, 139, 158). -/
inductive LogMsg
  | missingWarning (fname : String)
  | wouldStripInfo (fname : String)
  | strippedInfo (fname : String)
deriving DecidableEq, Repr

/-- The observable state threaded through `remove_windows_symbols`: the
filesystem, the log emitted so far, and the successive final contents of the
anonymous temporary files (`tempfile.TemporaryFile`) the with-block wrote
to.  Each temporary file is deleted when its with-block closes it; the field
`temps` records what was staged into them before deletion. -/
structure StripState where
  fs : Fs
  logs : List LogMsg
  temps : List (List String)
deriving DecidableEq, Repr

/-- Outcome of `remove_windows_symbols`: normal return, or a raised
`BuildScriptError`, each carrying the state at that point. -/
inductive StripResult
  | ok (s : StripState)
  | error (s : StripState)
deriving DecidableEq, Repr

/-- The state carried by either outcome. -/
def StripResult.state : StripResult → StripState
  | .ok s => s
  | .error s => s

/-- `remove_windows_symbols(files, dry_run)` from publish.py (lines
125-158), as a transition on `StripState`.  Per file, in list order: a name
not ending in `.cs` raises `BuildScriptError`; a missing file logs a warning
and is skipped; under `dry_run` an existing file only logs an info line;
otherwise the file is read, its transformed lines are written to an
anonymous temporary file (recorded in `temps`, deleted on close), the
stripped-info line is logged — and, as in the source, nothing is ever
written back to `fname`, so `fs` is unchanged. -/
def remove_windows_symbols (dry_run : Bool) : List String → StripState → StripResult
  | [], s => .ok s
  | fname :: rest, s =>
    if ¬ endsInCs fname then
      .error s
    else
      match fsRead s.fs fname with
      | none =>
        remove_windows_symbols dry_run rest
          ⟨s.fs, s.logs ++ [.missingWarning fname], s.temps⟩
      | some content =>
        if dry_run then
          remove_windows_symbols dry_run rest
            ⟨s.fs, s.logs ++ [.wouldStripInfo fname], s.temps⟩
        else
          remove_windows_symbols dry_run rest
            ⟨s.fs, s.logs ++ [.strippedInfo fname],
             s.temps ++ [stripTransform content]⟩

/-- The single log line `remove_windows_symbols` emits for one file that
passed the suffix check. -/
def fileLog (dry_run : Bool) (fs : Fs) (fname : String) : LogMsg :=
  match fsRead fs fname with
  | none => .missingWarning fname
  | some _ => if dry_run then .wouldStripInfo fname else .strippedInfo fname

/-- The temporary-file contents staged while processing one file that passed
the suffix check: none for a missing file or a dry run, the transformed
lines otherwise. -/
def stagedTemp (dry_run : Bool) (fs : Fs) (fname : String) : List (List String) :=
  match fsRead fs fname with
  | none => []
  | some content => if dry_run then [] else [stripTransform content]

theorem stagedTemp_dry (fs : Fs) (fname : String) :
    stagedTemp true fs fname = [] := by
  unfold stagedTemp
  cases fsRead fs fname <;> simp

/-- Processing a prefix of the file list whose names all pass the suffix
check appends its logs and staged temporary contents and leaves the
filesystem untouched, then continues with the remaining names. -/
theorem run_append (d : Bool) (good rest : List String) (s : StripState)
    (hgood : ∀ f ∈ good, endsInCs f = true) :
    remove_windows_symbols d (good ++ rest) s =
      remove_windows_symbols d rest
        ⟨s.fs, s.logs ++ good.map (fileLog d s.fs),
         s.temps ++ (good.map (stagedTemp d s.fs)).flatten⟩ := by
  induction good generalizing s with
  | nil => simp
  | cons f good ih =>
    have hf : endsInCs f = true := hgood f (by simp)
    have hgood' : ∀ g ∈ good, endsInCs g = true := fun g hg => hgood g (by simp [hg])
    cases hr : fsRead s.fs f with
    | none =>
      rw [List.cons_append, remove_windows_symbols]
      simp only [hf, Bool.not_true, Bool.false_eq_true, if_false, hr]
      rw [ih _ hgood']
      simp [fileLog, stagedTemp, hr]
    | some content =>
      cases d with
      | false =>
        rw [List.cons_append, remove_windows_symbols]
        simp only [hf, Bool.not_true, Bool.false_eq_true, if_false, hr]
        rw [ih _ hgood']
        simp [fileLog, stagedTemp, hr]
      | true =>
        rw [List.cons_append, remove_windows_symbols]
        simp only [hf, Bool.not_true, Bool.false_eq_true, if_false, hr]
        rw [ih _ hgood']
        simp [fileLog, stagedTemp, hr]

/-- `remove_windows_symbols` never changes the filesystem: the transformed
content only ever reaches an anonymous temporary file. -/
theorem run_fs_unchanged (d : Bool) (files : List String) (s : StripState) :
    (remove_windows_symbols d files s).state.fs = s.fs := by
  induction files generalizing s with
  | nil => rfl
  | cons f rest ih =>
    rw [remove_windows_symbols]
    by_cases hf : endsInCs f = true
    · simp only [hf, Bool.not_true, Bool.false_eq_true, if_false]
      cases hr : fsRead s.fs f with
      | none => exact ih _
      | some content => cases d <;> simp only [if_true, if_false] <;> exact ih _
    · simp [hf, StripResult.state]

/-- Under `dry_run` no temporary file is even created. -/
theorem run_temps_unchanged_dry (files : List String) (s : StripState) :
    (remove_windows_symbols true files s).state.temps = s.temps := by
  induction files generalizing s with
  | nil => rfl
  | cons f rest ih =>
    rw [remove_windows_symbols]
    by_cases hf : endsInCs f = true
    · simp only [hf, Bool.not_true, Bool.false_eq_true, if_false]
      cases hr : fsRead s.fs f with
      | none => exact ih _
      | some content => simp only [if_true]; exact ih _
    · simp [hf, StripResult.state]

/-- The parsed argument namespace produced by `parse_args` (lines 161-282):
one field per `add_argument` destination, with `remove_windows_symbols`
three-valued (`default=None`, `action="store_true"`). -/
structure PublishIntent where
  project : String
  runtime : String
  configuration : String
  output : String
  keep : Bool
  force_restore : Bool
  portable : Bool
  non_portable : Bool
  single_file : Bool
  remove_windows_symbols : Option Bool
  dry_run : Bool
  verbose : Bool
deriving DecidableEq, Repr

/-- The command-assembly section of `main` (publish.py lines 338-364):
starting from the base command, append `--force` iff `force_restore`, then
the configuration, runtime and output flag/value pairs, then the
single-file flags iff `single_file`, then the portable pair if `portable`
else the non-portable pair if `non_portable` else nothing, and finally the
project file. -/
def build_publish_command (base : List String) (args : PublishIntent) : List String :=
  let cmd := base
  let cmd := if args.force_restore then cmd ++ ["--force"] else cmd
  let cmd := cmd ++ ["--configuration", args.configuration]
  let cmd := cmd ++ ["--runtime", args.runtime]
  let cmd := cmd ++ ["--output", args.output]
  let cmd := if args.single_file then cmd ++ FLAGS_SINGLE_FILE else cmd
  let cmd :=
    if args.portable then cmd ++ FLAGS_PORTABLE
    else if args.non_portable then cmd ++ FLAGS_NON_PORTABLE
    else cmd
  cmd ++ [args.project]

/-- The adjacent token pairs of a command line, used to express flag/value
adjacency. -/
def adjacentPairs : List String → List (String × String)
  | [] => []
  | [_] => []
  | a :: b :: rest => (a, b) :: adjacentPairs (b :: rest)

/-- `args.runtime.startswith("win")` from `main`. -/
def startsWithWin (t : String) : Bool := pyStartsWith t.data "win".data

/-- The two advisory warnings the normalization block of `main` can log, one
constructor per `logger.warning` call site (lines 304-310 and 313-319). -/
inductive NormWarning
  | stripOnWindowsTarget
  | noStripOnNonWindowsTarget
deriving DecidableEq, Repr

/-- Outcome of the normalization block: the resulting
`args.remove_windows_symbols` value, the number of `logger.info` lines
emitted, and the advisory warnings emitted. -/
structure NormResult where
  value : Option Bool
  infos : Nat
  warnings : List NormWarning
deriving DecidableEq, Repr

/-- The `remove_windows_symbols` normalization block of `main` (publish.py
lines 294-319): if the parsed value is `None` and the runtime does not start
with `win`, set it to `True` and log an info line; if it is `None`
otherwise, leave it unset; if it is explicitly truthy and the runtime starts
with `win`, warn; if it is explicitly falsy and the runtime does not start
with `win`, warn; the explicit value is never changed. -/
def normalize_remove_symbols (rs : Option Bool) (runtime : String) : NormResult :=
  match rs with
  | none =>
    if ¬ startsWithWin runtime then ⟨some true, 1, []⟩
    else ⟨none, 0, []⟩
  | some true =>
    if startsWithWin runtime then ⟨some true, 0, [.stripOnWindowsTarget]⟩
    else ⟨some true, 0, []⟩
  | some false =>
    if ¬ startsWithWin runtime then ⟨some false, 0, [.noStripOnNonWindowsTarget]⟩
    else ⟨some false, 0, []⟩

/-- Truthiness of the normalized value in `if args.remove_windows_symbols:`
(line 323): `None` and `False` are both falsy. -/
def effectiveStrip : Option Bool → Bool
  | none => false
  | some b => b

/-- Observable outcome of the tail of `main` (publish.py lines 366-370):
whether the external process was launched, the exit code the launched
process returned, and the exit code of the script itself. -/
structure RunOutcome where
  launched : Bool
  processExit : Option Int
  scriptExit : Int
deriving Repr

/-- The dry-run / execute step at the end of `main` (lines 366-370),
parameterized by the behavior `procExit` of the external process.  Under
`dry_run` the command is only logged.  Otherwise `subprocess.run` launches
the process and waits for it — but its return value (which carries the exit
code of the process) is discarded, and `main` falls through returning
`None`, so the exit code of the script itself is 0 in both branches. -/
def main_run (dry_run : Bool) (cmd : List String) (procExit : List String → Int) :
    RunOutcome :=
  if dry_run then ⟨false, none, 0⟩
  else ⟨true, some (procExit cmd), 0⟩

/-- The strings that select the symbol-removal option in `parse_args`
(lines 266-278). -/
def removeSymbolsFlagTokens : List String :=
  ["-L", "--not-windows", "--remove-windows-symbols"]

/-- The value `parse_args(argv).remove_windows_symbols`, following the
documented argparse semantics of the declaration of the option
(`action="store_true"`, `default=None`, lines 266-278): the destination
holds the default `None` until one of the option strings occurs in `argv`,
and `True` afterwards; `store_true` takes no argument, so no command line
can store `False`. -/
def parse_remove_windows_symbols (argv : List String) : Option Bool :=
  if argv.any (fun a => removeSymbolsFlagTokens.contains a) then some true else none

theorem run_nil (d : Bool) (s : StripState) :
    remove_windows_symbols d [] s = .ok s := rfl

/-- C1: the claim says a successful non-dry-run call rewrites the file in
place, the on-disk content afterwards being the transformed content.  The
code stages the transformed content only into an anonymous temporary file
(deleted on close) and never writes it back: at the concrete input below
the transformed content differs from the original, is recorded only in
`temps`, and the on-disk content is unchanged after the call. -/
theorem strip_c1_bug :
    remove_windows_symbols false ["a.cs"] ⟨[("a.cs", ["int x;"])], [], []⟩ =
      .ok ⟨[("a.cs", ["int x;"])], [.strippedInfo "a.cs"], [["#undef WINDOWS"]]⟩ ∧
    stripTransform ["int x;"] = ["#undef WINDOWS"] ∧
    fsRead (remove_windows_symbols false ["a.cs"]
        ⟨[("a.cs", ["int x;"])], [], []⟩).state.fs "a.cs" = some ["int x;"] ∧
    ["int x;"] ≠ ["#undef WINDOWS"] := by decide

/-- C2: the claim says the first non-directive line is preserved right after
the inserted undefine directive.  The scan loop consumes that line from the
iterator before breaking and never writes it, so the transform drops it: on
the two-line input below the output has two lines, not the three the claim
requires. -/
theorem strip_c2_bug :
    stripTransform ["#define WINDOWS", "using System;"] =
      ["#define WINDOWS", "#undef WINDOWS"] ∧
    stripTransform ["#define WINDOWS", "using System;"] ≠
      ["#define WINDOWS", "#undef WINDOWS", "using System;"] := by decide

/-- C3, counterexample: with the external process exiting 1, the launched
run still gives the script exit code 0, not 1 — `subprocess.run` discards
the return code, so the process exit code does not propagate. -/
theorem main_c3_counterexample :
    (main_run false DOTNET_PUBLISH_COMMAND (fun _ => 1)).launched = true ∧
    (main_run false DOTNET_PUBLISH_COMMAND (fun _ => 1)).processExit = some 1 ∧
    (main_run false DOTNET_PUBLISH_COMMAND (fun _ => 1)).scriptExit = 0 ∧
    (0 : Int) ≠ 1 :=
  ⟨rfl, rfl, rfl, by decide⟩

/-- C3, amended: the script exit code is 0 on a successful dry run and also
on an actual run, whatever exit code the launched external process returns;
the exit code of the external process is received but discarded, never
translated into the script exit code. -/
theorem main_c3_amended (d : Bool) (cmd : List String)
    (procExit : List String → Int) :
    (main_run d cmd procExit).scriptExit = 0 ∧
    (main_run d cmd procExit).launched = !d ∧
    (main_run d cmd procExit).processExit =
      (if d then none else some (procExit cmd)) := by
  cases d <;> simp [main_run]

/-- C4: for the given intent the assembled command token list is exactly the
stated thirteen tokens in order — each flag immediately followed by its
value, the single-file and portable pairs present, and the project file
last. -/
theorem build_c4 :
    build_publish_command DOTNET_PUBLISH_COMMAND
      ⟨"App.csproj", "linux-x64", "Release", "./out", false, false, true, false,
       true, none, false, false⟩ =
      ["dotnet", "publish", "--configuration", "Release", "--runtime",
       "linux-x64", "--output", "./out", "/p:PublishSingleFile=true",
       "/p:IncludeNativeLibrariesForSelfExtract=true", "--self-contained",
       "true", "App.csproj"] := rfl

/-- C5: with the flag unset, a windows-like runtime leaves the value unset
(falsy) with no warning, any other runtime sets it to true with no warning
(only an info line); an explicit value disagreeing with the heuristic is
preserved unchanged and logs exactly one advisory warning. -/
theorem normalize_c5 (t : String) (b : Bool) :
    (startsWithWin t = true →
      normalize_remove_symbols none t = ⟨none, 0, []⟩ ∧
      effectiveStrip (normalize_remove_symbols none t).value = false) ∧
    (startsWithWin t = false →
      normalize_remove_symbols none t = ⟨some true, 1, []⟩) ∧
    (((b = true ∧ startsWithWin t = true) ∨
      (b = false ∧ startsWithWin t = false)) →
      (normalize_remove_symbols (some b) t).value = some b ∧
      (normalize_remove_symbols (some b) t).warnings.length = 1) := by
  refine ⟨fun h => ?_, fun h => ?_, fun h => ?_⟩
  · simp [normalize_remove_symbols, h, effectiveStrip]
  · simp [normalize_remove_symbols, h]
  · rcases h with ⟨hb, ht⟩ | ⟨hb, ht⟩ <;> subst hb <;>
      simp [normalize_remove_symbols, ht]

theorem normalize_c5_witness :
    normalize_remove_symbols none "linux-x64" = ⟨some true, 1, []⟩ ∧
    (normalize_remove_symbols (some false) "linux-x64").value = some false ∧
    (normalize_remove_symbols (some false) "linux-x64").warnings.length = 1 :=
  ⟨(normalize_c5 "linux-x64" false).2.1 (by decide),
   ((normalize_c5 "linux-x64" false).2.2 (Or.inr ⟨rfl, by decide⟩)).1,
   ((normalize_c5 "linux-x64" false).2.2 (Or.inr ⟨rfl, by decide⟩)).2⟩

/-- C6, counterexample: the suffix check runs inside the per-file loop, not
before any file is touched: with a missing `.cs` file listed before a
non-`.cs` name, the missing file is warned about first and only then is the
error raised — the log at the moment of the error is not empty. -/
theorem strip_c6_counterexample :
    remove_windows_symbols false ["missing.cs", "bad.txt"] ⟨[], [], []⟩ =
      .error ⟨[], [.missingWarning "missing.cs"], []⟩ ∧
    [LogMsg.missingWarning "missing.cs"] ≠ ([] : List LogMsg) := by decide

/-- C6, amended: a file list containing a name that does not end in `.cs`
(case-insensitively) makes the operation fail with `BuildScriptError`; the
error is raised when the first offending entry is reached, after every
earlier entry has already been processed normally (warned about if missing,
logged or stripped-to-staging otherwise). -/
theorem strip_c6_amended (d : Bool) (good : List String) (bad : String)
    (rest : List String) (s : StripState)
    (hgood : ∀ f ∈ good, endsInCs f = true) (hbad : endsInCs bad = false) :
    remove_windows_symbols d (good ++ bad :: rest) s =
      .error ⟨s.fs, s.logs ++ good.map (fileLog d s.fs),
              s.temps ++ (good.map (stagedTemp d s.fs)).flatten⟩ := by
  rw [run_append d good (bad :: rest) s hgood, remove_windows_symbols]
  simp [hbad]

theorem strip_c6_witness :
    remove_windows_symbols false ["ok.cs", "bad.txt"]
        ⟨[("ok.cs", ["x"])], [], []⟩ =
      .error ⟨[("ok.cs", ["x"])], [.strippedInfo "ok.cs"],
              [["#undef WINDOWS"]]⟩ :=
  (strip_c6_amended false ["ok.cs"] "bad.txt" [] ⟨[("ok.cs", ["x"])], [], []⟩
    (by decide) (by decide)).trans (by decide)

/-- C7: whenever both portable and non-portable are requested, the
assembled command contains the adjacent pair `--self-contained true` and
never contains the adjacent pair `--self-contained false`: portable
silently overrides non-portable and no error is raised (the builder is
total). -/
theorem portable_c7 (args : PublishIntent) (hp : args.portable = true)
    (hn : args.non_portable = true) :
    ("--self-contained", "true") ∈
      adjacentPairs (build_publish_command DOTNET_PUBLISH_COMMAND args) ∧
    ("--self-contained", "false") ∉
      adjacentPairs (build_publish_command DOTNET_PUBLISH_COMMAND args) := by
  obtain ⟨proj, rt, cfg, out, kp, fr, p, np, sf, rs, dr, vb⟩ := args
  simp only at hp hn
  subst hp; subst hn
  cases fr <;> cases sf <;>
    simp [build_publish_command, DOTNET_PUBLISH_COMMAND, FLAGS_SINGLE_FILE,
          FLAGS_PORTABLE, adjacentPairs]

theorem portable_c7_witness :
    ("--self-contained", "true") ∈
      adjacentPairs (build_publish_command DOTNET_PUBLISH_COMMAND
        ⟨"App.csproj", "any", "Release", "build", false, false, true, true,
         false, none, false, false⟩) ∧
    ("--self-contained", "false") ∉
      adjacentPairs (build_publish_command DOTNET_PUBLISH_COMMAND
        ⟨"App.csproj", "any", "Release", "build", false, false, true, true,
         false, none, false, false⟩) :=
  portable_c7 _ rfl rfl

/-- C8: on a non-empty list of `.cs` names of which at least one is missing
on disk, the run returns normally (no raise), the filesystem is unchanged,
and the log holds exactly one entry per listed file — a missing-file
warning for each absent file, a stripped-info line for each present one,
which is therefore still processed (its transformed content is staged). -/
theorem strip_c8 (files : List String) (s : StripState)
    (hne : files ≠ [])
    (hcs : ∀ f ∈ files, endsInCs f = true)
    (hmiss : ∃ f ∈ files, fsRead s.fs f = none) :
    remove_windows_symbols false files s =
      .ok ⟨s.fs, s.logs ++ files.map (fileLog false s.fs),
           s.temps ++ (files.map (stagedTemp false s.fs)).flatten⟩ ∧
    (∀ f ∈ files, fsRead s.fs f = none →
      fileLog false s.fs f = .missingWarning f ∧ stagedTemp false s.fs f = []) ∧
    (∀ f ∈ files, ∀ c, fsRead s.fs f = some c →
      fileLog false s.fs f = .strippedInfo f ∧
      stagedTemp false s.fs f = [stripTransform c]) := by
  refine ⟨?_, ?_, ?_⟩
  · have h := run_append false files [] s hcs
    simpa [run_nil] using h
  · intro f hf hnone
    simp [fileLog, stagedTemp, hnone]
  · intro f hf c hsome
    simp [fileLog, stagedTemp, hsome]

theorem strip_c8_witness :
    remove_windows_symbols false ["missing.cs", "ok.cs"]
        ⟨[("ok.cs", ["x"])], [], []⟩ =
      .ok ⟨[("ok.cs", ["x"])],
           [.missingWarning "missing.cs", .strippedInfo "ok.cs"],
           [["#undef WINDOWS"]]⟩ :=
  ((strip_c8 ["missing.cs", "ok.cs"] ⟨[("ok.cs", ["x"])], [], []⟩
      (by decide) (by decide)
      ⟨"missing.cs", by decide, by decide⟩).1).trans (by decide)

/-- C9, counterexample: the claim asks that a dry run return success for
every file list, but a name that does not end in `.cs` raises
`BuildScriptError` even under `dry_run=true`. -/
theorem strip_c9_counterexample :
    remove_windows_symbols true ["a.txt"] ⟨[], [], []⟩ =
      .error ⟨[], [], []⟩ := by decide

/-- C9, amended: a dry run never modifies the filesystem and stages no
temporary content, for every file list and every content — even when it
raises; and when every listed name ends in `.cs` it returns success,
logging a would-strip info line per existing file and a missing warning per
absent one. -/
theorem strip_c9_amended (files : List String) (s : StripState) :
    (remove_windows_symbols true files s).state.fs = s.fs ∧
    (remove_windows_symbols true files s).state.temps = s.temps ∧
    ((∀ f ∈ files, endsInCs f = true) →
      remove_windows_symbols true files s =
        .ok ⟨s.fs, s.logs ++ files.map (fileLog true s.fs), s.temps⟩) := by
  refine ⟨run_fs_unchanged true files s, run_temps_unchanged_dry files s,
          fun hcs => ?_⟩
  have h := run_append true files [] s hcs
  have htemps : (files.map (stagedTemp true s.fs)).flatten = [] := by
    rw [List.flatten_eq_nil_iff]
    intro x hx
    obtain ⟨f, hf, rfl⟩ := List.mem_map.mp hx
    exact stagedTemp_dry s.fs f
  rw [List.append_nil, run_nil, htemps, List.append_nil] at h
  exact h

theorem strip_c9_witness :
    remove_windows_symbols true ["a.cs"] ⟨[("a.cs", ["x"])], [], []⟩ =
      .ok ⟨[("a.cs", ["x"])], [.wouldStripInfo "a.cs"], []⟩ :=
  ((strip_c9_amended ["a.cs"] ⟨[("a.cs", ["x"])], [], []⟩).2.2
    (by decide)).trans (by decide)

/-- C10: a parsed command line can only leave the symbol-removal value unset
or set it to true, never to false, so the advisory-warning branch for an
explicit do-not-strip choice on a non-windows target can never run on a
CLI-parsed invocation: its warning never appears in the normalization
output. -/
theorem parse_c10 (argv : List String) (t : String) :
    parse_remove_windows_symbols argv ≠ some false ∧
    NormWarning.noStripOnNonWindowsTarget ∉
      (normalize_remove_symbols (parse_remove_windows_symbols argv) t).warnings := by
  cases ha : argv.any (fun a => removeSymbolsFlagTokens.contains a) <;>
    simp only [parse_remove_windows_symbols, ha, if_true, if_false,
               Bool.false_eq_true, normalize_remove_symbols] <;>
    constructor <;> (try split) <;> simp

end Publish
